import Mathlib

/-!
Verification of the wechat-cc message-to-Claude bridge (JavaScript sources
under src/).  JavaScript strings are modelled as lists of UTF-16 code units
(`JStr := List Nat`), because the source manipulates strings through
`length`, `substring`, `lastIndexOf` and friends, all of which operate on
UTF-16 code units.  Each definition below is a direct translation of the
named function from the repository; external collaborators (the Docker
daemon, the RegExp engine, the system clock, uuid generation) are modelled
as explicit oracle/environment inputs.
-/

/-- A JavaScript string: its sequence of UTF-16 code units. -/
abbrev JStr : Type := List Nat

/-- UTF-16 encoding of one Unicode scalar value (a Lean `Char`):
BMP characters give one code unit, astral characters a surrogate pair. -/
def charUnits (c : Char) : List Nat :=
  if c.toNat < 65536 then [c.toNat]
  else [55296 + (c.toNat - 65536) / 1024, 56320 + (c.toNat - 65536) % 1024]

/-- Encode a Lean string literal as a JavaScript string (UTF-16 code units). -/
def u (s : String) : JStr := s.toList.flatMap charUnits

/-- List membership test on JStr lists, modelling the checks done by
JavaScript `Map.has` / `Array.includes` on string keys. -/
def listContainsU : List JStr → JStr → Bool
  | [], _ => false
  | a :: rest, w => a == w || listContainsU rest w

/-- Remove every occurrence of a key, modelling `Map.delete` on a string key
(the executor stores at most one entry per wxid). -/
def filterOutU (l : List JStr) (w : JStr) : List JStr :=
  l.filter (fun x => !(x == w))

/-- High-surrogate test on a UTF-16 code unit (0xD800 - 0xDBFF). -/
def isHighSur (c : Nat) : Bool := 55296 ≤ c && c ≤ 56319

/-- Low-surrogate test on a UTF-16 code unit (0xDC00 - 0xDFFF). -/
def isLowSur (c : Nat) : Bool := 56320 ≤ c && c ≤ 57343

/-- Well-formedness of a UTF-16 code-unit sequence: every high surrogate is
immediately followed by a low surrogate and no low surrogate appears alone.
A JavaScript string that fails this test is not a valid Unicode string. -/
def wfUtf16 : List Nat → Bool
  | [] => true
  | c :: rest =>
    if isHighSur c then
      match rest with
      | [] => false
      | c2 :: rest2 => isLowSur c2 && wfUtf16 rest2
    else !isLowSur c && wfUtf16 rest

/-- JavaScript whitespace code units (the set recognised by trim / trimStart
and the regexp class backslash-s). -/
def isJsWsU (c : Nat) : Bool :=
  listContainsNat [9, 10, 11, 12, 13, 32, 160, 5760, 8192, 8193, 8194, 8195,
    8196, 8197, 8198, 8199, 8200, 8201, 8202, 8232, 8233, 8239, 8287, 12288, 65279] c
where listContainsNat (l : List Nat) (x : Nat) : Bool := l.contains x

/-- JavaScript trimStart on code units. -/
def jsTrimStartU (s : JStr) : JStr := List.dropWhile isJsWsU s

/-- JavaScript trim (both ends) on code units. -/
def jsTrimU (s : JStr) : JStr :=
  ((List.dropWhile isJsWsU ((List.dropWhile isJsWsU s).reverse)).reverse : List Nat)

/-- JavaScript falsy-or on a nullable string: null / undefined / empty string
fall through to the default (models the pervasive pattern a or-or b). -/
def jsOrOpt (a : Option JStr) (b : JStr) : JStr :=
  match a with
  | some s => if s == ([] : JStr) then b else s
  | none => b

/-- JavaScript falsy-or on a plain string: the empty string is falsy. -/
def jsOrStr (a b : JStr) : JStr := if a == ([] : JStr) then b else a

/-- JavaScript falsy-or on a number: 0 falls through to the default. -/
def orNatF (a : Option Nat) (b : Nat) : Nat :=
  match a with
  | some n => if n = 0 then b else n
  | none => b

/-- Truthiness of a nullable string (null / undefined / empty are falsy). -/
def optTruthy (a : Option JStr) : Bool :=
  match a with
  | some s => !(s == ([] : JStr))
  | none => false

/-- Inequality used when a nullable stored column is compared with a plain
string with the strict JavaScript operator (null is unequal to any string). -/
def optNeqU (a : Option JStr) (b : JStr) : Bool :=
  match a with
  | some s => !(s == b)
  | none => true

/-- JavaScript template interpolation of a nullable value: null prints as
the four characters n u l l. -/
def optTpl (a : Option JStr) : JStr := a.getD (u "null")

/-- ASCII lower-casing of one code unit (commands are ASCII; JavaScript
toLowerCase restricted to the values that occur). -/
def lowerAsciiU (c : Nat) : Nat := if 65 ≤ c && c ≤ 90 then c + 32 else c

/-- ASCII upper-casing of one code unit. -/
def upperAsciiU (c : Nat) : Nat := if 97 ≤ c && c ≤ 122 then c - 32 else c

def toLowerAsciiU (s : JStr) : JStr := (s.map lowerAsciiU : List Nat)

def toUpperAsciiU (s : JStr) : JStr := (s.map upperAsciiU : List Nat)

/-- Decimal rendering of a natural number as a JavaScript string. -/
def natToU (n : Nat) : JStr := u (Nat.repr n)

/-- Lexicographic order on code-unit lists; models the SQLite text
comparison (memcmp on UTF-8 bytes), with which it coincides on the ASCII
timestamp strings the store compares. -/
def leU : JStr → JStr → Bool
  | [], _ => true
  | _ :: _, [] => false
  | a :: as_, b :: bs => if a < b then true else if b < a then false else leU as_ bs

/-- Strict variant of `leU`. -/
def ltU (a b : JStr) : Bool := leU a b && !(a == b)

/-- Prefix test on code-unit lists. -/
def isPrefixU : JStr → JStr → Bool
  | [], _ => true
  | _ :: _, [] => false
  | a :: as_, b :: bs => a == b && isPrefixU as_ bs

/-- Literal-substring test: does `s` contain `q` as a contiguous run of
code units?  This is the semantics the specification demands of
find_by_nickname. -/
def hasSubstrU (s q : JStr) : Bool :=
  match s with
  | [] => q == ([] : JStr)
  | _ :: rest => isPrefixU q s || hasSubstrU rest q

/-- Replace the first occurrence of `target` inside `s` (JavaScript
String.replace with a string pattern replaces only the first match). -/
def replaceFirstSub (s target repl : JStr) : JStr :=
  match s with
  | [] => if target == ([] : JStr) then repl else ([] : JStr)
  | c :: rest =>
    if isPrefixU target (c :: rest) then
      repl ++ ((c :: rest).drop target.length : List Nat)
    else c :: replaceFirstSub rest target repl

/-- JavaScript lastIndexOf of one code unit, searching backwards from
`pos` inclusive; -1 when absent. -/
def jsLastIndexOf (s : JStr) (ch : Nat) (pos : Nat) : Int :=
  match (((List.range s.length).filter
      (fun i => decide (i ≤ pos) && (s.get? i == some ch))).getLast?) with
  | some i => (i : Int)
  | none => -1

/-- Index of the first list element equal to `x` (JavaScript
Array.indexOf); -1 when absent. -/
def jsIndexOfList (l : List JStr) (x : JStr) : Int :=
  go l 0
where go : List JStr → Nat → Int
  | [], _ => -1
  | a :: rest, i => if a == x then (i : Int) else go rest (i + 1)

/-- In-place update of one array slot (JavaScript `args[idx] = v`). -/
def listSetInt (l : List JStr) (i : Int) (v : JStr) : List JStr :=
  if i < 0 then l else l.set i.toNat v

/-- Split on runs of whitespace (JavaScript split on the regexp backslash-s
plus).  Call sites apply it to trimmed or space-joined strings, so the
leading-empty-field edge case of the JavaScript regexp split cannot arise. -/
def splitWsU (s : JStr) : List JStr :=
  go s ([] : List Nat) []
where go : List Nat → List Nat → List JStr → List JStr
  | [], cur, acc => (if cur.isEmpty then acc else (cur.reverse : JStr) :: acc).reverse
  | c :: rest, cur, acc =>
    if isJsWsU c then
      if cur.isEmpty then go rest [] acc else go rest [] ((cur.reverse : JStr) :: acc)
    else go rest (c :: cur) acc

/-- Split on a single code unit, keeping empty fields (JavaScript split
with a one-character string separator). -/
def splitChU (s : JStr) (ch : Nat) : List JStr :=
  go s ([] : List Nat) []
where go : List Nat → List Nat → List JStr → List JStr
  | [], cur, acc => ((cur.reverse : JStr) :: acc).reverse
  | c :: rest, cur, acc =>
    if c == ch then go rest [] ((cur.reverse : JStr) :: acc)
    else go rest (c :: cur) acc

/-- Join a list of strings with a separator (JavaScript Array.join). -/
def joinWithU (sep : JStr) : List JStr → JStr
  | [] => ([] : JStr)
  | x :: rest => rest.foldl (fun a y => a ++ sep ++ y) x

/-- Join with a newline, the most common join in the router. -/
def joinNlU (l : List JStr) : JStr := joinWithU (u "\n") l

/-- SQLite LIKE matching on code units, fuel-recursive so that it reduces
in the kernel: percent (37) matches any run, underscore (95) matches one
unit, other units compare ASCII-case-insensitively (SQLite default). -/
def likeFuel : Nat → List Nat → List Nat → Bool
  | 0, _, _ => false
  | _ + 1, [], [] => true
  | _ + 1, [], _ :: _ => false
  | f + 1, p :: ps, s =>
    if p == 37 then
      likeFuel f ps s ||
        (match s with
         | [] => false
         | _ :: s2 => likeFuel f (p :: ps) s2)
    else
      match s with
      | [] => false
      | c :: s2 =>
        if p == 95 then likeFuel f ps s2
        else lowerAsciiU p == lowerAsciiU c && likeFuel f ps s2

/-- SQLite LIKE with enough fuel (every step consumes pattern or subject). -/
def likeMatchU (pat s : JStr) : Bool := likeFuel (pat.length + s.length + 1) pat s

/-- SQL `column LIKE pattern` when the column is nullable: NULL never
matches. -/
def likeOpt (pat : JStr) : Option JStr → Bool
  | some s => likeMatchU pat s
  | none => false

/-!
Timestamps.  The store writes `last_active` with SQLite CURRENT_TIMESTAMP
in the format YYYY-MM-DD HH:MM:SS; the executor turns it back into a
number of milliseconds with the JavaScript Date constructor.  The parser
below recognises exactly that format and is evaluated as UTC (the actual
local-time offset is one constant on every parsed value and cancels in the
age subtraction the executor performs).  An unparseable string gives none,
the counterpart of an Invalid Date whose getTime() is NaN.
-/

/-- Digit test on a code unit. -/
def isDigitU (c : Nat) : Bool := 48 ≤ c && c ≤ 57

/-- Numeric value of a two-digit code-unit pair. -/
def dec2 (a b : Nat) : Int := ((a - 48) * 10 + (b - 48) : Nat)

/-- Numeric value of a four-digit code-unit quadruple. -/
def dec4 (a b c d : Nat) : Int :=
  ((a - 48) * 1000 + (b - 48) * 100 + (c - 48) * 10 + (d - 48) : Nat)

/-- Days from 1970-01-01 for a civil date (standard civil-calendar
conversion, exact for the proleptic Gregorian calendar). -/
def daysFromCivil (y m d : Int) : Int :=
  let y2 := if m ≤ 2 then y - 1 else y
  let era := (if 0 ≤ y2 then y2 else y2 - 399) / 400
  let yoe := y2 - era * 400
  let mp := (m + 9) % 12
  let doy := (153 * mp + 2) / 5 + d - 1
  let doe := yoe * 365 + yoe / 4 - yoe / 100 + doy
  era * 146097 + doe - 719468

/-- Epoch milliseconds of a civil date-time. -/
def epochMs (y mo d h mi s : Int) : Int :=
  ((daysFromCivil y mo d * 24 + h) * 60 + mi) * 60000 + s * 1000

/-- Parse a SQLite CURRENT_TIMESTAMP string (YYYY-MM-DD HH:MM:SS) into
epoch milliseconds; none models an Invalid Date (getTime() = NaN). -/
def parseSqlTimestamp (s : JStr) : Option Int :=
  match s with
  | [y1, y2, y3, y4, h1, m1, m2, h2, d1, d2, sp, a1, a2, c1, b1, b2, c2, s1, s2] =>
    if h1 == 45 && h2 == 45 && sp == 32 && c1 == 58 && c2 == 58 &&
        [y1, y2, y3, y4, m1, m2, d1, d2, a1, a2, b1, b2, s1, s2].all isDigitU then
      some (epochMs (dec4 y1 y2 y3 y4) (dec2 m1 m2) (dec2 d1 d2)
        (dec2 a1 a2) (dec2 b1 b2) (dec2 s1 s2))
    else none
  | _ => none

/-!
Metadata store (src/unnamed/part_001, database.js).  The SQLite tables are
modelled as in-memory lists; each exported statement becomes a pure
function on them.  JavaScript undefined arguments bind as SQL NULL, which
is what the COALESCE-based upsert is written against.
-/

/-- One row of the friends table. -/
structure Friend where
  wxid : JStr
  nickname : Option JStr
  remark_name : Option JStr
  permission : JStr
  added_by : Option JStr
  notes : Option JStr
deriving DecidableEq

/-- The optional argument object of friendsDB.upsert; a missing property is
none and binds as NULL. -/
structure UpsertFields where
  nickname : Option JStr := none
  remark_name : Option JStr := none
  permission : Option JStr := none
  added_by : Option JStr := none
  notes : Option JStr := none

/-- friendsDB.get: SELECT * FROM friends WHERE wxid = ?. -/
def friendsGet (db : List Friend) (wxid : JStr) : Option Friend :=
  db.find? (fun f => f.wxid == wxid)

/-- SQL COALESCE of the excluded (incoming) value with the stored one. -/
def coalesceOpt (incoming : Option JStr) (stored : Option JStr) : Option JStr :=
  match incoming with
  | some v => some v
  | none => stored

/-- friendsDB.upsert: INSERT ... ON CONFLICT(wxid) DO UPDATE SET with
COALESCE on nickname, remark_name, permission and notes.  Note that the
JavaScript call site binds `permission or-or normal`, so the bound
permission value is never NULL: on conflict the COALESCE always takes the
incoming value. -/
def friendsUpsert (db : List Friend) (wxid : JStr) (f : UpsertFields) : List Friend :=
  let permVal := jsOrOpt f.permission (u "normal")
  match friendsGet db wxid with
  | none =>
    db ++ [{ wxid := wxid, nickname := f.nickname, remark_name := f.remark_name,
             permission := permVal, added_by := f.added_by, notes := f.notes }]
  | some _ =>
    db.map (fun old =>
      if old.wxid == wxid then
        { old with
          nickname := coalesceOpt f.nickname old.nickname,
          remark_name := coalesceOpt f.remark_name old.remark_name,
          permission := (coalesceOpt (some permVal) (some old.permission)).getD old.permission,
          notes := coalesceOpt f.notes old.notes }
      else old)

/-- friendsDB.getPermission: the stored permission or null. -/
def friendsGetPermission (db : List Friend) (wxid : JStr) : Option JStr :=
  (friendsGet db wxid).map Friend.permission

/-- friendsDB.setPermission: UPDATE friends SET permission = ? WHERE wxid = ?. -/
def friendsSetPermission (db : List Friend) (wxid : JStr) (permission : JStr) : List Friend :=
  db.map (fun f => if f.wxid == wxid then { f with permission := permission } else f)

/-- friendsDB.listAll.  The added_at ordering is not modelled (the column
itself is not carried); the stored order stands in for it. -/
def friendsListAll (db : List Friend) : List Friend := db

/-- friendsDB.remove: DELETE FROM friends WHERE wxid = ?. -/
def friendsRemove (db : List Friend) (wxid : JStr) : List Friend :=
  db.filter (fun f => !(f.wxid == wxid))

/-- friendsDB.findByNickname: SELECT * FROM friends WHERE nickname LIKE ?
OR remark_name LIKE ?, with the raw query interpolated between two percent
signs and no escaping of LIKE wildcards. -/
def friendsFindByNickname (db : List Friend) (q : JStr) : List Friend :=
  let pat : JStr := [37] ++ q ++ [37]
  db.filter (fun f => likeOpt pat f.nickname || likeOpt pat f.remark_name)

/-- One row of the sessions table. -/
structure Session where
  id : JStr
  wxid : JStr
  claude_session : Option JStr
  last_active : JStr
  message_count : Nat
deriving DecidableEq

/-- sessionsDB.getActive: the row with the greatest last_active for the
user (ORDER BY last_active DESC LIMIT 1). -/
def sessionsGetActive (db : List Session) (wxid : JStr) : Option Session :=
  (db.filter (fun s => s.wxid == wxid)).foldl
    (fun acc s =>
      match acc with
      | none => some s
      | some b => if ltU b.last_active s.last_active then some s else some b)
    none

/-- sessionsDB.create: INSERT with CURRENT_TIMESTAMP defaults and
message_count DEFAULT 0. -/
def sessionsCreate (db : List Session) (id wxid : JStr) (nowStr : JStr) : List Session :=
  db ++ [{ id := id, wxid := wxid, claude_session := none,
           last_active := nowStr, message_count := 0 }]

/-- sessionsDB.touch: set last_active to now and bump message_count. -/
def sessionsTouch (db : List Session) (id : JStr) (nowStr : JStr) : List Session :=
  db.map (fun s =>
    if s.id == id then { s with last_active := nowStr, message_count := s.message_count + 1 }
    else s)

/-- sessionsDB.setClaudeSession. -/
def sessionsSetClaudeSession (db : List Session) (id cs : JStr) : List Session :=
  db.map (fun s => if s.id == id then { s with claude_session := some cs } else s)

/-- sessionsDB.clearUser: DELETE FROM sessions WHERE wxid = ?. -/
def sessionsClearUser (db : List Session) (wxid : JStr) : List Session :=
  db.filter (fun s => !(s.wxid == wxid))

/-- One row of the audit_log table (the autoincrement id is the list
position; timestamp is the CURRENT_TIMESTAMP string at insertion). -/
structure AuditEntry where
  wxid : JStr
  nickname : JStr
  direction : JStr
  message : Option JStr
  claude_session : Option JStr
  timestamp : JStr
deriving DecidableEq

/-- auditDB.log: append one row. -/
def auditAppend (db : List AuditEntry) (wxid nickname direction : JStr)
    (message : Option JStr) (claudeSession : Option JStr) (nowStr : JStr) : List AuditEntry :=
  db ++ [{ wxid := wxid, nickname := nickname, direction := direction,
           message := message, claude_session := claudeSession, timestamp := nowStr }]

/-- auditDB.getByUser: rows of one user, newest first (timestamps are
nondecreasing in insertion order, so newest-first is reverse order). -/
def auditGetByUser (db : List AuditEntry) (wxid : JStr) (limit : Nat) : List AuditEntry :=
  ((db.filter (fun a => a.wxid == wxid)).reverse).take limit

/-- auditDB.getRecent: newest rows first. -/
def auditGetRecent (db : List AuditEntry) (limit : Nat) : List AuditEntry :=
  (db.reverse).take limit

/-- One row of the rate_limits table. -/
structure RateRow where
  wxid : JStr
  window_start : JStr
  request_count : Nat
deriving DecidableEq

/-- Result object of rateLimitDB.checkAndIncrement; reason is meaningful
only on denial (JavaScript leaves it undefined when allowed). -/
structure RateResult where
  allowed : Bool
  reason : JStr
deriving DecidableEq

/-- rateLimitDB.checkAndIncrement.  minuteKey is the ISO string of the
current minute (seconds zeroed) and dayKey the ISO date of today, both
computed by the JavaScript caller from the clock; the day total sums every
window of the user whose key is >= the day string (ISO minute keys of the
same day compare greater than the bare date). -/
def rateCheckAndIncrement (rates : List RateRow) (wxid : JStr)
    (maxPerMinute maxPerDay : Nat) (minuteKey dayKey : JStr) : RateResult × List RateRow :=
  let minuteRow := rates.find? (fun r => r.wxid == wxid && r.window_start == minuteKey)
  let minuteDeny :=
    match minuteRow with
    | some r => decide (maxPerMinute ≤ r.request_count)
    | none => false
  if minuteDeny then
    ({ allowed := false, reason := u "请求过于频繁，请稍后再试" }, rates)
  else
    let total := (rates.filter (fun r => r.wxid == wxid && leU dayKey r.window_start)).foldl
      (fun a r => a + r.request_count) 0
    if maxPerDay ≤ total then
      ({ allowed := false, reason := u "今日请求次数已用完" }, rates)
    else
      let rates2 :=
        match minuteRow with
        | some _ =>
          rates.map (fun r =>
            if r.wxid == wxid && r.window_start == minuteKey then
              { r with request_count := r.request_count + 1 }
            else r)
        | none => rates ++ [{ wxid := wxid, window_start := minuteKey, request_count := 1 }]
      ({ allowed := true, reason := ([] : JStr) }, rates2)

/-!
Configuration (src/files/config.js, loadConfig).  The YAML object is
modelled flat: each optional-chained lookup such as
config.docker?.limits?.memory becomes one Option field of RawConfig.
CPU counts are carried as naturals (they are only stringified into the
docker command line here).
-/

/-- Raw parsed YAML values, before defaulting. -/
structure RawConfig where
  admin_wxid : Option JStr := none
  claude_cli_path : Option JStr := none
  claude_timeout : Option Nat := none
  docker_image : Option JStr := none
  docker_container_pfx : Option JStr := none
  docker_data_dir : Option JStr := none
  limits_memory : Option JStr := none
  limits_admin_memory : Option JStr := none
  limits_cpus : Option Nat := none
  limits_admin_cpus : Option Nat := none
  limits_pids : Option Nat := none
  limits_tmp_size : Option JStr := none
  network_admin : Option JStr := none
  network_trusted : Option JStr := none
  network_normal : Option JStr := none
  permissions_notify_unauthorized : Option Bool := none
  permissions_unauthorized_message : Option JStr := none
  permissions_default_level : Option JStr := none
  session_expire_minutes : Option Nat := none
  session_max_history : Option Nat := none
  rate_max_per_minute : Option Nat := none
  rate_max_per_day : Option Nat := none
  security_blocked_patterns : Option (List JStr) := none
  security_trusted_file_access : Option Bool := none
  logging_level : Option JStr := none
  logging_file : Option JStr := none
  logging_log_message_content : Option Bool := none

structure LimitsCfg where
  memory : JStr
  admin_memory : JStr
  cpus : Nat
  admin_cpus : Nat
  pids : Nat
  tmp_size : JStr

structure NetworkCfg where
  admin : JStr
  trusted : JStr
  normal : JStr

structure DockerCfg where
  image : JStr
  container_pfx : JStr
  data_dir : JStr
  limits : LimitsCfg
  network : NetworkCfg

structure ClaudeCfg where
  cli_path : JStr
  timeout : Nat

structure PermissionsCfg where
  notify_unauthorized : Bool
  unauthorized_message : JStr
  default_level : JStr

structure SessionCfg where
  expire_minutes : Nat
  max_history : Nat

structure RateCfg where
  max_per_minute : Nat
  max_per_day : Nat

structure SecurityCfg where
  blocked_patterns : List JStr
  trusted_file_access : Bool

structure LoggingCfg where
  level : JStr
  file : JStr
  log_message_content : Bool

structure Config where
  admin_wxid : JStr
  claude : ClaudeCfg
  docker : DockerCfg
  permissions : PermissionsCfg
  session : SessionCfg
  rate_limit : RateCfg
  security : SecurityCfg
  logging : LoggingCfg

/-- loadConfig: apply the defaulting rules of src/files/config.js.  String
and number fields use the JavaScript falsy-or (empty string and 0 fall
through to the default); booleans use the nullish operator; the
blocked_patterns array uses falsy-or, but an array is always truthy so
only a missing key defaults (the field name container_pfx stands for the
source name container_underscore-prefix, which Lean naming rules here
disallow verbatim). -/
def loadConfig (raw : RawConfig) : Config :=
  { admin_wxid := jsOrOpt raw.admin_wxid ([] : JStr)
    claude :=
      { cli_path := jsOrOpt raw.claude_cli_path (u "claude")
        timeout := orNatF raw.claude_timeout 120 }
    docker :=
      { image := jsOrOpt raw.docker_image (u "claude-sandbox:latest")
        container_pfx := jsOrOpt raw.docker_container_pfx (u "claude-friend-")
        data_dir := jsOrOpt raw.docker_data_dir (u "~/claude-bridge-data")
        limits :=
          { memory := jsOrOpt raw.limits_memory (u "512m")
            admin_memory := jsOrOpt raw.limits_admin_memory (u "2g")
            cpus := orNatF raw.limits_cpus 1
            admin_cpus := orNatF raw.limits_admin_cpus 2
            pids := orNatF raw.limits_pids 100
            tmp_size := jsOrOpt raw.limits_tmp_size (u "100m") }
        network :=
          { admin := jsOrOpt raw.network_admin (u "bridge")
            trusted := jsOrOpt raw.network_trusted (u "claude-limited")
            normal := jsOrOpt raw.network_normal (u "none") } }
    permissions :=
      { notify_unauthorized := raw.permissions_notify_unauthorized.getD true
        unauthorized_message :=
          jsOrOpt raw.permissions_unauthorized_message (u "抱歉，你还没有被授权使用此服务。")
        default_level := jsOrOpt raw.permissions_default_level (u "normal") }
    session :=
      { expire_minutes := orNatF raw.session_expire_minutes 60
        max_history := orNatF raw.session_max_history 50 }
    rate_limit :=
      { max_per_minute := orNatF raw.rate_max_per_minute 10
        max_per_day := orNatF raw.rate_max_per_day 200 }
    security :=
      { blocked_patterns := raw.security_blocked_patterns.getD []
        trusted_file_access := raw.security_trusted_file_access.getD true }
    logging :=
      { level := jsOrOpt raw.logging_level (u "info")
        file := jsOrOpt raw.logging_file (u "logs/bridge.log")
        log_message_content := raw.logging_log_message_content.getD true } }

/-!
Docker manager (src/design/docker-manager.js).  The container engine is
external: every docker CLI invocation is represented by one field of
`DockerOracle`, giving the outcome the engine would produce.  The argument
lists the manager would pass are still built exactly as in the source,
because two claims are about their contents.
-/

/-- Host process environment seen by the node process. -/
structure HostEnv where
  oauthToken : Option JStr
  apiKey : Option JStr
  home : JStr

/-- Parsed docker stats sample (the manager JSON-parses the engine output;
the parse is part of the engine boundary here). -/
structure Stats where
  cpu : JStr
  mem : JStr
  net : JStr
  pids : JStr

/-- One parsed row of docker ps output (name, status and the two labels
the manager reads back). -/
structure ContainerRow where
  name : JStr
  status : JStr
  wxid : Option JStr
  permission : Option JStr

/-- Possible outcomes of the spawned claude CLI process inside
execClaude: the timeout timer fires first, the spawn itself errors, or
the process closes with an exit code and captured stdout / stderr. -/
inductive ClaudeRun where
  | timeout : ClaudeRun
  | spawnFail : ClaudeRun
  | closed : Int → JStr → JStr → ClaudeRun

/-- Engine behaviour: the result of each docker CLI call the manager can
make.  Functions of the argument list or container name so that one
oracle covers every call site. -/
structure DockerOracle where
  inspectOk : JStr → Bool
  runningOut : JStr → Except Unit JStr
  createOutcome : List JStr → Except Unit Unit
  startOutcome : JStr → Except Unit Unit
  stopOutcome : JStr → Except Unit Unit
  rmOutcome : JStr → Except Unit Unit
  chownOutcome : Except Unit Unit
  statsOut : Option Stats
  execCmdOut : Except JStr JStr
  psRows : Except Unit (List ContainerRow)
  claudeRun : List JStr → ClaudeRun
  extractSession : JStr → Option JStr
  regexTest : JStr → JStr → Bool

/-- containerName: the prefix plus the wxid with every character outside
A-Z a-z 0-9 underscore dot hyphen replaced by an underscore. -/
def containerSafeU (c : Nat) : Bool :=
  (48 ≤ c && c ≤ 57) || (65 ≤ c && c ≤ 90) || (97 ≤ c && c ≤ 122) ||
    c == 95 || c == 46 || c == 45

def containerName (cfg : Config) (wxid : JStr) : JStr :=
  cfg.docker.container_pfx ++ (wxid.map (fun c => if containerSafeU c then c else 95) : List Nat)

/-- userDataDir: the configured data_dir with a first tilde replaced by the
home directory, joined with the wxid (path.join modelled as slash
concatenation; the directory creation side effect is outside the model). -/
def userDataDirU (cfg : Config) (host : HostEnv) (wxid : JStr) : JStr :=
  replaceFirstSub cfg.docker.data_dir (u "~") host.home ++ u "/" ++ wxid

/-- getNetwork: network by permission tier, with the same literal
fallbacks the source repeats after loadConfig already defaulted them. -/
def getNetwork (cfg : Config) (permission : JStr) : JStr :=
  if permission == u "admin" then jsOrStr cfg.docker.network.admin (u "bridge")
  else if permission == u "trusted" then jsOrStr cfg.docker.network.trusted (u "claude-limited")
  else jsOrStr cfg.docker.network.normal (u "none")

/-- createContainer: the docker create argument list, including the
post-hoc splice that upgrades memory and cpus for admin containers.  The
only environment variables passed are WXID and ANTHROPIC_API_KEY (the
latter defaulted to the empty string when unset on the host). -/
def createContainerArgs (cfg : Config) (host : HostEnv) (wxid permission : JStr) : List JStr :=
  let name := containerName cfg wxid
  let dataDir := userDataDirU cfg host wxid
  let dl := cfg.docker.limits
  let args : List JStr :=
    [u "create", u "--name", name,
     u "--memory", dl.memory,
     u "--cpus", natToU dl.cpus,
     u "--pids-limit", natToU dl.pids,
     u "--tmpfs", u "/tmp:size=" ++ dl.tmp_size,
     u "--read-only",
     u "--security-opt", u "no-new-privileges",
     u "--cap-drop", u "ALL",
     u "--network", getNetwork cfg permission,
     u "-v", dataDir ++ u "/workspace:/home/sandbox/workspace",
     u "-v", dataDir ++ u "/claude-config:/home/sandbox/.claude",
     u "-e", u "WXID=" ++ wxid,
     u "-e", u "ANTHROPIC_API_KEY=" ++ jsOrOpt host.apiKey ([] : JStr),
     u "--label", u "app=wechat-claude-bridge",
     u "--label", u "wxid=" ++ wxid,
     u "--label", u "permission=" ++ permission,
     u "-d",
     u "--restart", u "unless-stopped",
     cfg.docker.image,
     u "tail", u "-f", u "/dev/null"]
  if permission == u "admin" then
    let idx := jsIndexOfList args (u "--memory") + 1
    let args1 := listSetInt args idx (jsOrStr dl.admin_memory (u "2g"))
    let cpuIdx := jsIndexOfList args1 (u "--cpus") + 1
    listSetInt args1 cpuIdx (natToU (orNatF (some dl.admin_cpus) 2))
  else args

/-- The values following -e flags in a docker argument list (observer used
by the environment-forwarding claim). -/
def envAssignments : List JStr → List JStr
  | [] => []
  | a :: rest =>
    (match rest with
     | [] => []
     | b :: _ => if a == u "-e" then [b] else []) ++ envAssignments rest

/-- The variable names of those assignments (the part before the equals
sign, code unit 61). -/
def envNamesU (args : List JStr) : List JStr :=
  (envAssignments args).map (fun v => (v.takeWhile (fun c => !(c == 61)) : List Nat))

/-- containerExists: docker inspect, catch means false. -/
def dockerContainerExists (o : DockerOracle) (name : JStr) : Bool := o.inspectOk name

/-- isRunning: docker inspect -f of State.Running, trimmed output compared
with the word true; catch means false. -/
def dockerIsRunning (o : DockerOracle) (name : JStr) : Bool :=
  match o.runningOut name with
  | Except.ok sOut => jsTrimU sOut == u "true"
  | Except.error _ => false

/-- fixPermissions: the chown exec inside the container; its failure is
swallowed (the catch is empty). -/
def dockerFixPermissions (o : DockerOracle) : Unit :=
  match o.chownOutcome with
  | _ => ()

/-- createContainer: run docker create (errors propagate), then the
non-fatal fixPermissions. -/
def dockerCreateContainer (o : DockerOracle) (cfg : Config) (host : HostEnv)
    (wxid permission : JStr) : Except Unit Unit :=
  match o.createOutcome (createContainerArgs cfg host wxid permission) with
  | Except.error e => Except.error e
  | Except.ok _ =>
    let _ := dockerFixPermissions o
    Except.ok ()

/-- ensureContainer: create when absent, start when stopped; engine errors
from create and start propagate to the caller. -/
def ensureContainer (o : DockerOracle) (cfg : Config) (host : HostEnv)
    (wxid permission : JStr) : Except Unit JStr :=
  let name := containerName cfg wxid
  let created : Except Unit Unit :=
    if !dockerContainerExists o name then dockerCreateContainer o cfg host wxid permission
    else Except.ok ()
  match created with
  | Except.error e => Except.error e
  | Except.ok _ =>
    if !dockerIsRunning o name then
      match o.startOutcome name with
      | Except.error e => Except.error e
      | Except.ok _ => Except.ok name
    else Except.ok name

/-- stopContainer: docker stop with a ten-second grace; catch means false. -/
def dockerStopContainer (o : DockerOracle) (cfg : Config) (wxid : JStr) : Bool :=
  match o.stopOutcome (containerName cfg wxid) with
  | Except.ok _ => true
  | Except.error _ => false

/-- destroyContainer: docker rm -f; catch means false. -/
def dockerDestroyContainer (o : DockerOracle) (cfg : Config) (wxid : JStr) : Bool :=
  match o.rmOutcome (containerName cfg wxid) with
  | Except.ok _ => true
  | Except.error _ => false

/-- execCommand: docker exec of a shell command; its own catch turns any
engine error into an Error-prefixed string, so it never throws. -/
def dockerExecCommand (o : DockerOracle) (cfg : Config) (wxid : JStr)
    (command : JStr) (asRoot : Bool) : JStr :=
  let _ := (containerName cfg wxid, command, asRoot)
  match o.execCmdOut with
  | Except.ok sOut => jsTrimU sOut
  | Except.error m => u "Error: " ++ m

/-- getStats: docker stats sample, JSON-parsed; catch means null. -/
def dockerGetStats (o : DockerOracle) : Option Stats := o.statsOut

/-- getDiskUsage: du inside the container via execCommand (whose catch
makes the outer catch unreachable). -/
def dockerGetDiskUsage (o : DockerOracle) (cfg : Config) (wxid : JStr) : JStr :=
  dockerExecCommand o cfg wxid (u "du -sh /home/sandbox/workspace") false

/-- listContainers: docker ps filtered by the app label; catch means the
empty list.  The tab-and-label splitting of the raw output is folded into
the engine boundary, which returns parsed rows. -/
def dockerListContainers (o : DockerOracle) : List ContainerRow :=
  match o.psRows with
  | Except.ok rows => rows
  | Except.error _ => []

/-- rebuild: destroy (failure swallowed) then ensure. -/
def dockerRebuild (o : DockerOracle) (cfg : Config) (host : HostEnv)
    (wxid permission : JStr) : Except Unit Unit :=
  let _ := dockerDestroyContainer o cfg wxid
  match ensureContainer o cfg host wxid permission with
  | Except.error e => Except.error e
  | Except.ok _ => Except.ok ()

/-!
The frontend chunker (src/design/index.js, splitMessage).  The loop is
written with explicit fuel so that it is total in Lean; the fuel
text.length + 1 is enough whenever the JavaScript loop terminates, since
every iteration with maxLen >= 1 consumes at least one code unit.
-/

/-- One pass of the splitMessage while loop. -/
def splitMessageGo : Nat → JStr → Nat → List JStr → List JStr
  | 0, _, _, acc => acc.reverse
  | fuel + 1, remaining, maxLen, acc =>
    if remaining.length = 0 then acc.reverse
    else if remaining.length ≤ maxLen then (remaining :: acc).reverse
    else
      let si := jsLastIndexOf remaining 10 maxLen
      let splitIdx : Int := if 2 * si < (maxLen : Int) then (maxLen : Int) else si
      let chunk : JStr := remaining.take splitIdx.toNat
      let rest : JStr := jsTrimStartU (remaining.drop splitIdx.toNat)
      splitMessageGo fuel rest maxLen (chunk :: acc)

/-- splitMessage: a short reply is one chunk; otherwise cut at the last
newline at or before maxLen when that newline sits at or beyond half the
budget, else hard-cut at maxLen code units (the condition
splitIdx < maxLen * 0.5 is rendered as 2 * splitIdx < maxLen, exact for
integers and a -1 not-found index). -/
def splitMessage (text : JStr) (maxLen : Nat) : List JStr :=
  if text.length ≤ maxLen then [text]
  else splitMessageGo (text.length + 1) text maxLen []

/-!
Claude executor (src/design/claude-executor.js).  The process state
(SQLite tables plus the in-flight map) is bundled into SysState; the
clock, the uuid generator and the SQLite CURRENT_TIMESTAMP string are
supplied through JsEnvTime.
-/

/-- Whole mutable state of one bridge process. -/
structure SysState where
  friends : List Friend
  sessions : List Session
  audits : List AuditEntry
  rates : List RateRow
  activeTasks : List JStr

/-- Clock and randomness inputs for one inbound message. -/
structure JsEnvTime where
  nowMs : Int
  nowStr : JStr
  minuteKey : JStr
  dayKey : JStr
  freshUuid : JStr

/-- External interactions the executor can perform; the busy short-circuit
must perform none of them. -/
inductive ExecEvent where
  | engineEnsure : ExecEvent
  | sessionStore : ExecEvent
  | claudeCli : ExecEvent
deriving DecidableEq

/-- getOrCreateSession: fetch the active session; when one exists, expire
it only if now minus its parsed last_active strictly exceeds the window in
milliseconds.  An unparseable last_active gives getTime() = NaN, and the
JavaScript comparison NaN > expireMs is false, so such a session is kept.
When no session survives, insert a fresh row and read it back. -/
def getOrCreateSession (sessions : List Session) (cfg : Config) (t : JsEnvTime)
    (wxid : JStr) : Session × List Session :=
  let sOpt := sessionsGetActive sessions wxid
  let step : Option Session × List Session :=
    match sOpt with
    | some s =>
      let expireMs : Int := (cfg.session.expire_minutes : Int) * 60 * 1000
      let expired :=
        match parseSqlTimestamp s.last_active with
        | some lastMs => decide (expireMs < t.nowMs - lastMs)
        | none => false
      if expired then (none, sessionsClearUser sessions wxid) else (some s, sessions)
    | none => (none, sessions)
  match step.1 with
  | some s => (s, step.2)
  | none =>
    let db2 := sessionsCreate step.2 t.freshUuid wxid t.nowStr
    ((sessionsGetActive db2 wxid).getD
      { id := t.freshUuid, wxid := wxid, claude_session := none,
        last_active := t.nowStr, message_count := 0 }, db2)

/-- buildSystemPrompt: the identity block sent as the system prompt. -/
def buildSystemPrompt (fi : Friend) : JStr :=
  let displayName := jsOrOpt fi.remark_name (jsOrOpt fi.nickname fi.wxid)
  let permDesc :=
    if fi.permission == u "admin" then u "管理员，拥有完全权限，可以执行任何代码和系统操作"
    else if fi.permission == u "trusted" then u "信任用户，可以执行代码和文件操作（沙箱环境内）"
    else if fi.permission == u "normal" then u "普通用户，仅限问答交流，不可执行代码或访问文件系统"
    else u "未知"
  joinNlU
    [u "当前用户身份信息:",
     u "- 微信ID: " ++ fi.wxid,
     u "- 昵称: " ++ displayName,
     u "- 权限等级: " ++ fi.permission ++ u " (" ++ permDesc ++ u ")",
     ([] : JStr),
     u "环境说明:",
     u "- 你运行在此用户的专属 Docker 容器中",
     u "- 工作目录: /home/sandbox/workspace（持久化存储）",
     u "- 容器与其他用户完全隔离",
     (if fi.permission == u "normal" then
        u "- ⚠️ 此用户仅限问答，请勿执行任何代码、shell命令或文件操作"
      else u "- 此用户可以请求执行代码和文件操作"),
     u "- 回复请保持简洁，适合微信阅读"]

/-- Options object handed to execClaude. -/
structure ExecOpts where
  claudeSession : Option JStr
  permission : JStr
  timeoutS : Nat

/-- Resolved value of execClaude. -/
structure ClaudeResult where
  ok : Bool
  output : JStr
  stderrS : Option JStr

/-- The full docker exec plus claude CLI argument list built by
execClaude: print mode, text output, the system prompt, an optional
resume token, an empty allowed-tools list for normal users, then the
message. -/
def execClaudeFullArgs (cfg : Config) (host : HostEnv) (wxid : JStr)
    (systemPrompt message : JStr) (opts : ExecOpts) : List JStr :=
  let name := containerName cfg wxid
  let dockerArgs : List JStr :=
    [u "exec", u "-u", u "sandbox", u "-w", u "/home/sandbox/workspace",
     u "-e", u "ANTHROPIC_API_KEY=" ++ jsOrOpt host.apiKey ([] : JStr), name]
  let claudeArgs : List JStr :=
    [u "claude", u "--print", u "--output-format", u "text", u "--system-prompt", systemPrompt]
  let claudeArgs := claudeArgs ++
    (if optTruthy opts.claudeSession then [u "--resume", opts.claudeSession.getD ([] : JStr)]
     else [])
  let claudeArgs := claudeArgs ++
    (if opts.permission == u "normal" then [u "--allowedTools", ([] : JStr)] else [])
  let claudeArgs := claudeArgs ++ [message]
  dockerArgs ++ claudeArgs

/-- execClaude: spawn the CLI with a timeout; the promise always resolves.
Exit code 0 gives the trimmed stdout (or a placeholder when empty) and the
captured stderr; a nonzero exit or a spawn error gives a generic failure
string; the timeout timer gives its own message. -/
def execClaudeRun (o : DockerOracle) (cfg : Config) (host : HostEnv) (wxid : JStr)
    (systemPrompt message : JStr) (opts : ExecOpts) : ClaudeResult :=
  match o.claudeRun (execClaudeFullArgs cfg host wxid systemPrompt message opts) with
  | ClaudeRun.timeout => { ok := false, output := u "⏰ 请求超时", stderrS := none }
  | ClaudeRun.spawnFail => { ok := false, output := u "❌ 容器执行失败", stderrS := none }
  | ClaudeRun.closed code stdoutS stderrS =>
    if code == 0 then
      { ok := true, output := jsOrStr (jsTrimU stdoutS) (u "(Claude 没有返回内容)"),
        stderrS := some stderrS }
    else
      { ok := false, output := u "❌ 处理出错了，请稍后重试", stderrS := some stderrS }

/-- The executor truncation budget (const maxLen = 4000 in execute). -/
def executorMaxLen : Nat := 4000

/-- The suffix appended when the reply is truncated. -/
def truncSuffixU : JStr := u "\n\n... (响应过长，已截断)"

/-- Step 6 of execute: responses longer than the budget are cut at 4000
code units with the truncation suffix appended; shorter responses pass
through unchanged. -/
def truncateResponse (s : JStr) : JStr :=
  if executorMaxLen < s.length then (s.take executorMaxLen : List Nat) ++ truncSuffixU else s

/-- The busy reply of the concurrency guard. -/
def busyReplyU : JStr := u "⏳ 上一条消息还在处理中，请稍后再试..."

/-- The generic failure reply of the execute catch block. -/
def execFailReplyU : JStr := u "❌ 处理消息时出错，请稍后重试"

/-- The try block of execute: ensure the container (may throw), look up or
create and touch the session, build the prompt, run the CLI, harvest a
claude session id from stderr when one is printed, and truncate the
output.  A missing friend record reproduces the TypeError thrown inside
the try block when friend_info is dereferenced. -/
def executorBody (st : SysState) (o : DockerOracle) (cfg : Config) (host : HostEnv)
    (t : JsEnvTime) (wxid : JStr) (friendInfo : Option Friend) (message : JStr) :
    Except Unit JStr × SysState × List ExecEvent :=
  match friendInfo with
  | none => (Except.error (), st, [])
  | some fi =>
    match ensureContainer o cfg host wxid fi.permission with
    | Except.error e => (Except.error e, st, [ExecEvent.engineEnsure])
    | Except.ok _ =>
      let pr := getOrCreateSession st.sessions cfg t wxid
      let sessTouched := sessionsTouch pr.2 pr.1.id t.nowStr
      let systemPrompt := buildSystemPrompt fi
      let result := execClaudeRun o cfg host wxid systemPrompt message
        { claudeSession := pr.1.claude_session, permission := fi.permission,
          timeoutS := cfg.claude.timeout }
      let sessAfter :=
        if optTruthy result.stderrS then
          match o.extractSession (result.stderrS.getD ([] : JStr)) with
          | some sid => sessionsSetClaudeSession sessTouched pr.1.id sid
          | none => sessTouched
        else sessTouched
      (Except.ok (truncateResponse result.output),
       { st with sessions := sessAfter },
       [ExecEvent.engineEnsure, ExecEvent.sessionStore, ExecEvent.claudeCli])

/-- The finally plus catch epilogue of execute: the wxid is removed from
the in-flight map on both the normal and the error path, and an error
collapses into the generic failure reply. -/
def executorFinish (out : Except Unit JStr × SysState × List ExecEvent) (wxid : JStr) :
    JStr × SysState × List ExecEvent :=
  let st3 : SysState := { out.2.1 with activeTasks := filterOutU out.2.1.activeTasks wxid }
  match out.1 with
  | Except.ok r => (r, st3, out.2.2)
  | Except.error _ => (execFailReplyU, st3, out.2.2)

/-- execute: the busy short-circuit returns immediately without touching
any external system; otherwise the wxid is inserted into the in-flight
map, the body runs, and the finally block removes it again. -/
def executorExecute (st : SysState) (o : DockerOracle) (cfg : Config) (host : HostEnv)
    (t : JsEnvTime) (wxid : JStr) (friendInfo : Option Friend) (message : JStr) :
    JStr × SysState × List ExecEvent :=
  if listContainsU st.activeTasks wxid then (busyReplyU, st, [])
  else
    executorFinish
      (executorBody { st with activeTasks := wxid :: st.activeTasks }
        o cfg host t wxid friendInfo message)
      wxid

/-- clearSession: delete the user sessions; optionally stop and re-ensure
the container (the restart branch can propagate an engine error). -/
def clearSessionE (st : SysState) (o : DockerOracle) (cfg : Config) (host : HostEnv)
    (wxid : JStr) (restartContainer : Bool) : Except Unit SysState :=
  let st1 : SysState := { st with sessions := sessionsClearUser st.sessions wxid }
  if restartContainer then
    let _ := dockerStopContainer o cfg wxid
    match ensureContainer o cfg host wxid (u "normal") with
    | Except.error e => Except.error e
    | Except.ok _ => Except.ok st1
  else Except.ok st1

/-- killProcess: pkill inside the container via execCommand (which catches
internally, so the catch-false branch is unreachable), then release the
guard. -/
def killProcessE (st : SysState) (o : DockerOracle) (cfg : Config) (wxid : JStr) :
    Bool × SysState :=
  let _ := dockerExecCommand o cfg wxid (u "pkill -f claude || true") true
  (true, { st with activeTasks := filterOutU st.activeTasks wxid })

/-- Result of getContainerStatus. -/
structure ContainerStatusE where
  name : JStr
  running : Bool
  stats : Option Stats
  disk : Option JStr

/-- getContainerStatus: name, running flag, and stats / disk only when
running. -/
def getContainerStatusE (o : DockerOracle) (cfg : Config) (wxid : JStr) : ContainerStatusE :=
  let name := containerName cfg wxid
  let running := dockerIsRunning o name
  { name := name, running := running,
    stats := if running then dockerGetStats o else none,
    disk := if running then some (dockerGetDiskUsage o cfg wxid) else none }

/-- destroyContainer (executor wrapper): clear sessions, release the
guard, then remove the container (engine failure swallowed). -/
def destroyContainerE (st : SysState) (o : DockerOracle) (cfg : Config) (wxid : JStr) :
    Bool × SysState :=
  let st1 : SysState := { st with sessions := sessionsClearUser st.sessions wxid,
                                  activeTasks := filterOutU st.activeTasks wxid }
  (dockerDestroyContainer o cfg wxid, st1)

/-- rebuildContainer (executor wrapper): clear sessions, release the
guard, destroy, then ensure; the ensure step can propagate an engine
error. -/
def rebuildContainerE (st : SysState) (o : DockerOracle) (cfg : Config) (host : HostEnv)
    (wxid permission : JStr) : Except Unit Unit × SysState :=
  let st1 : SysState := { st with sessions := sessionsClearUser st.sessions wxid,
                                  activeTasks := filterOutU st.activeTasks wxid }
  (dockerRebuild o cfg host wxid permission, st1)

/-!
Message router (src/files/config.js, MessageRouter).  The command registry
is the registration-ordered association list of registerBuiltinCommands;
each handler is translated below.  The RegExp engine used by the security
filter is the oracle field regexTest.
-/

/-- Command identity, standing in for the handler closure. -/
inductive CmdTag where
  | help | status | clear | allow | block | friendsAll | logs | kill
  | containers | restart | destroy | rebuild | stopall

/-- One registry entry: required tier, help text, handler. -/
structure CmdSpec where
  permission : JStr
  description : JStr
  tag : CmdTag

/-- registerBuiltinCommands, in registration order. -/
def commandsList : List (JStr × CmdSpec) :=
  [(u "/help", { permission := u "normal", description := u "查看帮助", tag := CmdTag.help }),
   (u "/status", { permission := u "normal", description := u "查看状态（含容器信息）", tag := CmdTag.status }),
   (u "/clear", { permission := u "normal", description := u "清除会话历史", tag := CmdTag.clear }),
   (u "/allow", { permission := u "admin", description := u "授权好友: /allow 昵称 [trusted|normal]", tag := CmdTag.allow }),
   (u "/block", { permission := u "admin", description := u "拉黑好友: /block 昵称", tag := CmdTag.block }),
   (u "/list", { permission := u "admin", description := u "列出所有授权好友", tag := CmdTag.friendsAll }),
   (u "/logs", { permission := u "admin", description := u "查看日志: /logs [昵称]", tag := CmdTag.logs }),
   (u "/kill", { permission := u "admin", description := u "终止好友进程: /kill 昵称", tag := CmdTag.kill }),
   (u "/containers", { permission := u "admin", description := u "查看所有容器状态", tag := CmdTag.containers }),
   (u "/restart", { permission := u "admin", description := u "重启容器: /restart 昵称", tag := CmdTag.restart }),
   (u "/destroy", { permission := u "admin", description := u "销毁容器（保留数据）: /destroy 昵称", tag := CmdTag.destroy }),
   (u "/rebuild", { permission := u "admin", description := u "重建容器: /rebuild 昵称", tag := CmdTag.rebuild }),
   (u "/stopall", { permission := u "admin", description := u "停止所有容器", tag := CmdTag.stopall })]

/-- commands.get on the registry. -/
def commandLookup (cmd : JStr) : Option CmdSpec :=
  (commandsList.find? (fun p => p.1 == cmd)).map Prod.snd

/-- The permLevels object; an unknown tier indexes to undefined. -/
def permLevel (p : JStr) : Option Nat :=
  if p == u "admin" then some 3
  else if p == u "trusted" then some 2
  else if p == u "normal" then some 1
  else if p == u "blocked" then some 0
  else none

/-- JavaScript < on possibly-undefined numbers: any comparison with
undefined is false (NaN semantics). -/
def jsLtOpt (a b : Option Nat) : Bool :=
  match a, b with
  | some x, some y => decide (x < y)
  | _, _ => false

/-- JavaScript >= on possibly-undefined numbers: false when either side is
undefined. -/
def jsGeOpt (a b : Option Nat) : Bool :=
  match a, b with
  | some x, some y => decide (y ≤ x)
  | _, _ => false

/-- getEffectivePermission: the admin wxid is forced to admin before any
store lookup; otherwise the stored permission, else the configured
default level. -/
def getEffectivePermission (cfg : Config) (friends : List Friend) (wxid : JStr) : JStr :=
  if wxid == cfg.admin_wxid then u "admin"
  else jsOrOpt (friendsGetPermission friends wxid) cfg.permissions.default_level

/-- Inbound contact data handed over by the frontend. -/
structure Contact where
  wxid : JStr
  nickname : JStr
  remarkName : JStr

/-- ensureFriendRegistered: create the row on first contact (admin tier
when the wxid equals admin_wxid, else the default level); on a nickname or
remark change, upsert only those two fields. -/
def ensureFriendRegistered (cfg : Config) (st : SysState) (contact : Contact) : SysState :=
  match friendsGet st.friends contact.wxid with
  | none =>
    let perm := if contact.wxid == cfg.admin_wxid then u "admin" else cfg.permissions.default_level
    let fields : UpsertFields :=
      { nickname := some contact.nickname, remark_name := some contact.remarkName,
        permission := some perm }
    { st with friends := friendsUpsert st.friends contact.wxid fields }
  | some existing =>
    if optNeqU existing.nickname contact.nickname ||
        optNeqU existing.remark_name contact.remarkName then
      let fields : UpsertFields :=
        { nickname := some contact.nickname, remark_name := some contact.remarkName }
      { st with friends := friendsUpsert st.friends contact.wxid fields }
    else st

/-- Result object of securityCheck. -/
structure SecResult where
  safe : Bool
  reason : JStr

/-- securityCheck: admin bypasses; otherwise the first case-insensitive
blocked-pattern match (the RegExp engine is the oracle) denies. -/
def routerSecurityCheck (cfg : Config) (regexTest : JStr → JStr → Bool)
    (message : JStr) (permission : JStr) : SecResult :=
  if permission == u "admin" then { safe := true, reason := ([] : JStr) }
  else if cfg.security.blocked_patterns.any (fun p => regexTest p message) then
    { safe := false, reason := u "消息包含不允许的操作" }
  else { safe := true, reason := ([] : JStr) }

/-- formatLogs: one line per audit row, direction icon, the time part of
the timestamp, the nickname and the first 60 units of the message. -/
def formatLogs (logs : List AuditEntry) : JStr :=
  if logs.isEmpty then u "暂无日志"
  else
    joinNlU (logs.map (fun l =>
      let dir := if l.direction == u "in" then u "📩" else u "📤"
      let time := jsOrOpt ((splitChU l.timestamp 32).get? 1) l.timestamp
      let msg : JStr :=
        match l.message with
        | some m => (m.take 60 : List Nat)
        | none => ([] : JStr)
      dir ++ u " [" ++ time ++ u "] " ++ l.nickname ++ u ": " ++ msg))

/-- cmdHelp: the commands visible at the caller tier. -/
def cmdHelp (permission : JStr) : JStr :=
  let lines := [u "📖 可用命令:\n"] ++
    (commandsList.filterMap (fun p =>
      if jsGeOpt (permLevel permission) (permLevel p.2.permission) then
        some (p.1 ++ u " - " ++ p.2.description)
      else none)) ++
    [u "\n直接发送文字消息即可与 Claude 对话"]
  joinNlU lines

/-- cmdStatus: friend summary, session state and container status. -/
def cmdStatus (cfg : Config) (o : DockerOracle) (st : SysState) (wxid : JStr) : JStr :=
  let friend := friendsGet st.friends wxid
  let session := sessionsGetActive st.sessions wxid
  let c := getContainerStatusE o cfg wxid
  let lines :=
    [u "📊 当前状态:\n",
     u "👤 " ++ jsOrOpt (friend.bind Friend.remark_name)
        (jsOrOpt (friend.bind Friend.nickname) (u "未知")),
     u "🔑 权限: " ++ jsOrOpt (friend.map Friend.permission) (u "无"),
     u "💬 会话: " ++
       (match session with
        | some s => u "活跃 (" ++ natToU s.message_count ++ u " 条消息)"
        | none => u "无"),
     ([] : JStr),
     u "🐳 容器: " ++ c.name,
     u "   状态: " ++ (if c.running then u "✅ 运行中" else u "⏹️ 已停止")]
  let lines := lines ++
    (match c.stats with
     | some sres => [u "   CPU: " ++ sres.cpu, u "   内存: " ++ sres.mem, u "   进程: " ++ sres.pids]
     | none => [])
  let lines := lines ++
    (match c.disk with
     | some d => if d == ([] : JStr) then [] else [u "   磁盘: " ++ d]
     | none => [])
  joinNlU lines

/-- cmdAllow: resolve the name by substring search; zero matches is a
not-found error, several an ambiguity error; otherwise set the tier
(default trusted). -/
def cmdAllow (st : SysState) (args : JStr) : JStr × SysState :=
  if args == ([] : JStr) then (u "用法: /allow 昵称 [trusted|normal]", st)
  else
    let parts := splitWsU args
    let searchName := parts.headD ([] : JStr)
    let level := jsOrOpt (parts.get? 1) (u "trusted")
    if !listContainsU [u "trusted", u "normal", u "admin"] level then
      (u "❌ 无效权限等级，可选: trusted, normal, admin", st)
    else
      match friendsFindByNickname st.friends searchName with
      | [] => (u "❌ 未找到 \"" ++ searchName ++ u "\"，该好友需要先发一条消息", st)
      | [f] =>
        (u "✅ " ++ optTpl f.nickname ++ u " → " ++ level,
         { st with friends := friendsSetPermission st.friends f.wxid level })
      | matches_ =>
        let names := joinNlU (matches_.map (fun f => optTpl f.nickname ++ u "(" ++ f.wxid ++ u ")"))
        (u "找到多个匹配:\n" ++ names ++ u "\n请精确指定", st)

/-- cmdBlock: set the target to blocked and destroy its container. -/
def cmdBlock (st : SysState) (o : DockerOracle) (cfg : Config) (args : JStr) : JStr × SysState :=
  if args == ([] : JStr) then (u "用法: /block 昵称", st)
  else
    match friendsFindByNickname st.friends (jsTrimU args) with
    | [] => (u "❌ 未找到 \"" ++ args ++ u "\"", st)
    | [f] =>
      let st1 : SysState := { st with friends := friendsSetPermission st.friends f.wxid (u "blocked") }
      let pr := destroyContainerE st1 o cfg f.wxid
      (u "🚫 已拉黑 " ++ optTpl f.nickname ++ u "，容器已销毁", pr.2)
    | _ => (u "找到多个匹配，请精确指定", st)

/-- cmdList: every friend, grouped by tier in the fixed order with icons. -/
def cmdList (st : SysState) : JStr :=
  let friends := friendsListAll st.friends
  if friends.isEmpty then u "暂无授权好友"
  else
    let tierBlock := fun (perm : JStr) (icon : JStr) =>
      let grp := friends.filter (fun f => f.permission == perm)
      if grp.isEmpty then ([] : List JStr)
      else [icon ++ u " " ++ toUpperAsciiU perm ++ u ":"] ++
        grp.map (fun f => u "  " ++ jsOrOpt f.remark_name (jsOrOpt f.nickname f.wxid)) ++
        [([] : JStr)]
    joinNlU ([u "👥 好友列表:\n"] ++
      tierBlock (u "admin") (u "👑") ++ tierBlock (u "trusted") (u "⭐") ++
      tierBlock (u "normal") (u "👤") ++ tierBlock (u "blocked") (u "🚫"))

/-- cmdLogs: the 20 most recent audit rows, globally or for the first
nickname match. -/
def cmdLogs (st : SysState) (args : JStr) : JStr :=
  if args == ([] : JStr) then formatLogs (auditGetRecent st.audits 20)
  else
    match friendsFindByNickname st.friends (jsTrimU args) with
    | [] => u "❌ 未找到 \"" ++ args ++ u "\""
    | f :: _ => formatLogs (auditGetByUser st.audits f.wxid 20)

/-- cmdKill: kill the claude processes of the first match and release its
guard. -/
def cmdKill (st : SysState) (o : DockerOracle) (cfg : Config) (args : JStr) : JStr × SysState :=
  if args == ([] : JStr) then (u "用法: /kill 昵称", st)
  else
    match friendsFindByNickname st.friends (jsTrimU args) with
    | [] => (u "❌ 未找到 \"" ++ args ++ u "\"", st)
    | f :: _ =>
      let pr := killProcessE st o cfg f.wxid
      ((if pr.1 then u "✅ 已终止 " ++ optTpl f.nickname ++ u " 的进程"
        else u "没有运行中的进程"), pr.2)

/-- cmdContainers: every app-labelled container with its owning friend. -/
def cmdContainers (st : SysState) (o : DockerOracle) : JStr :=
  let containers := dockerListContainers o
  if containers.isEmpty then u "🐳 暂无运行中的容器"
  else
    joinNlU ([u "🐳 容器列表:\n"] ++
      containers.flatMap (fun c =>
        let friend :=
          match c.wxid with
          | some w => if w == ([] : JStr) then none else friendsGet st.friends w
          | none => none
        let name := jsOrOpt (friend.bind Friend.remark_name)
          (jsOrOpt (friend.bind Friend.nickname) (jsOrOpt c.wxid (u "未知")))
        let statusIcon := if hasSubstrU c.status (u "Up") then u "✅" else u "⏹️"
        [statusIcon ++ u " " ++ name ++ u " [" ++ optTpl c.permission ++ u "]",
         u "   " ++ c.name ++ u ": " ++ c.status]))

/-- cmdRestart: stop the container and clear the session of the first
match. -/
def cmdRestart (st : SysState) (o : DockerOracle) (cfg : Config) (host : HostEnv)
    (args : JStr) : Except Unit JStr × SysState :=
  if args == ([] : JStr) then (Except.ok (u "用法: /restart 昵称"), st)
  else
    match friendsFindByNickname st.friends (jsTrimU args) with
    | [] => (Except.ok (u "❌ 未找到 \"" ++ args ++ u "\""), st)
    | f :: _ =>
      let _ := dockerStopContainer o cfg f.wxid
      match clearSessionE st o cfg host f.wxid false with
      | Except.error e => (Except.error e, st)
      | Except.ok st1 =>
        (Except.ok (u "🔄 已重启 " ++ optTpl f.nickname ++ u " 的容器（下次发消息自动启动）"), st1)

/-- cmdDestroy: remove the container of the first match, keeping data. -/
def cmdDestroy (st : SysState) (o : DockerOracle) (cfg : Config) (args : JStr) :
    JStr × SysState :=
  if args == ([] : JStr) then (u "用法: /destroy 昵称", st)
  else
    match friendsFindByNickname st.friends (jsTrimU args) with
    | [] => (u "❌ 未找到 \"" ++ args ++ u "\"", st)
    | f :: _ =>
      let pr := destroyContainerE st o cfg f.wxid
      (u "🗑️ 已销毁 " ++ optTpl f.nickname ++ u " 的容器（数据保留，下次发消息自动重建）", pr.2)

/-- cmdRebuild: destroy then recreate the container of the first match at
its stored tier; the recreate step is not guarded, so an engine error
escapes. -/
def cmdRebuild (st : SysState) (o : DockerOracle) (cfg : Config) (host : HostEnv)
    (args : JStr) : Except Unit JStr × SysState :=
  if args == ([] : JStr) then (Except.ok (u "用法: /rebuild 昵称"), st)
  else
    match friendsFindByNickname st.friends (jsTrimU args) with
    | [] => (Except.ok (u "❌ 未找到 \"" ++ args ++ u "\""), st)
    | f :: _ =>
      let pr := rebuildContainerE st o cfg host f.wxid f.permission
      match pr.1 with
      | Except.error e => (Except.error e, pr.2)
      | Except.ok _ => (Except.ok (u "🔨 已重建 " ++ optTpl f.nickname ++ u " 的容器"), pr.2)

/-- cmdStopAll: stop every app-labelled container (each stop catches). -/
def cmdStopAll (st : SysState) (o : DockerOracle) (cfg : Config) : JStr × SysState :=
  let containers := dockerListContainers o
  let _ := containers.map (fun c =>
    match c.wxid with
    | some w => dockerStopContainer o cfg w
    | none => false)
  (u "⏹️ 已停止全部 " ++ natToU containers.length ++ u " 个容器", st)

/-- Dispatch one registry entry to its translated handler. -/
def runCommandHandler (tag : CmdTag) (cfg : Config) (o : DockerOracle) (host : HostEnv)
    (st : SysState) (wxid : JStr) (permission : JStr) (args : JStr) :
    Except Unit JStr × SysState :=
  match tag with
  | CmdTag.help => (Except.ok (cmdHelp permission), st)
  | CmdTag.status => (Except.ok (cmdStatus cfg o st wxid), st)
  | CmdTag.clear =>
    match clearSessionE st o cfg host wxid false with
    | Except.error e => (Except.error e, st)
    | Except.ok st1 => (Except.ok (u "✅ 会话已清除，下次对话将开始新的上下文"), st1)
  | CmdTag.allow => let pr := cmdAllow st args; (Except.ok pr.1, pr.2)
  | CmdTag.block => let pr := cmdBlock st o cfg args; (Except.ok pr.1, pr.2)
  | CmdTag.friendsAll => (Except.ok (cmdList st), st)
  | CmdTag.logs => (Except.ok (cmdLogs st args), st)
  | CmdTag.kill => let pr := cmdKill st o cfg args; (Except.ok pr.1, pr.2)
  | CmdTag.containers => (Except.ok (cmdContainers st o), st)
  | CmdTag.restart => cmdRestart st o cfg host args
  | CmdTag.destroy => let pr := cmdDestroy st o cfg args; (Except.ok pr.1, pr.2)
  | CmdTag.rebuild => cmdRebuild st o cfg host args
  | CmdTag.stopall => let pr := cmdStopAll st o cfg; (Except.ok pr.1, pr.2)

/-- handleCommand: tokenize, look up the lowercased command word (unknown
words are not commands and give null), enforce the tier, then run the
handler; handler exceptions propagate. -/
def routerHandleCommand (cfg : Config) (o : DockerOracle) (host : HostEnv)
    (st : SysState) (wxid : JStr) (permission : JStr) (message : JStr) :
    Except Unit (Option JStr) × SysState :=
  let parts := splitWsU (jsTrimU message)
  let cmd := toLowerAsciiU (parts.headD ([] : JStr))
  let args := joinWithU (u " ") parts.tail
  match commandLookup cmd with
  | none => (Except.ok none, st)
  | some c =>
    if jsLtOpt (permLevel permission) (permLevel c.permission) then
      (Except.ok (some (u "⚠️ 权限不足")), st)
    else
      let pr := runCommandHandler c.tag cfg o host st wxid permission args
      match pr.1 with
      | Except.error e => (Except.error e, pr.2)
      | Except.ok r => (Except.ok (some r), pr.2)

/-- Does the message start with a slash (code unit 47)? -/
def startsWithSlashU (message : JStr) : Bool :=
  match message with
  | c :: _ => c == 47
  | [] => false

/-- Outcome of handleMessage: ok none is the deliberate no-reply, ok some
a user-visible string, error an exception escaping to the frontend loop. -/
structure RouteOut where
  reply : Except Unit (Option JStr)
  state : SysState

/-- handleMessage: ingress audit, friend registration, effective
permission, the blocked and no-permission short-circuits, rate limiting,
command dispatch (whose exceptions are not caught), the security filter,
executor dispatch (wrapped in try, though execute already catches), and
the egress audit. -/
def routerHandleMessage (cfg : Config) (o : DockerOracle) (host : HostEnv)
    (t : JsEnvTime) (st : SysState) (contact : Contact) (message : JStr) : RouteOut :=
  let displayName := jsOrStr contact.remarkName (jsOrStr contact.nickname contact.wxid)
  let loggedMsg := some (if cfg.logging.log_message_content then message else u "[已隐藏]")
  let auditsIn := auditAppend st.audits contact.wxid displayName (u "in") loggedMsg none t.nowStr
  let st := { st with audits := auditsIn }
  let st := ensureFriendRegistered cfg st contact
  let permission := getEffectivePermission cfg st.friends contact.wxid
  if permission == u "blocked" then { reply := Except.ok none, state := st }
  else if permission == ([] : JStr) then
    { reply := Except.ok (if cfg.permissions.notify_unauthorized then
        some cfg.permissions.unauthorized_message else none), state := st }
  else
    let rc := rateCheckAndIncrement st.rates contact.wxid
      cfg.rate_limit.max_per_minute cfg.rate_limit.max_per_day t.minuteKey t.dayKey
    let st := { st with rates := rc.2 }
    if !rc.1.allowed then { reply := Except.ok (some (u "⚠️ " ++ rc.1.reason)), state := st }
    else
      let cmdOut :=
        if startsWithSlashU message then
          routerHandleCommand cfg o host st contact.wxid permission message
        else (Except.ok none, st)
      match cmdOut.1 with
      | Except.error e => { reply := Except.error e, state := cmdOut.2 }
      | Except.ok (some resp) =>
        let outMsg := some (resp.take 200 : List Nat)
        let auditsOut := auditAppend cmdOut.2.audits contact.wxid displayName (u "out") outMsg none t.nowStr
        { reply := Except.ok (some resp), state := { cmdOut.2 with audits := auditsOut } }
      | Except.ok none =>
        let st1 := cmdOut.2
        let sec := routerSecurityCheck cfg o.regexTest message permission
        if !sec.safe then { reply := Except.ok (some (u "⚠️ " ++ sec.reason)), state := st1 }
        else
          let friendInfo := friendsGet st1.friends contact.wxid
          let ex := executorExecute st1 o cfg host t contact.wxid friendInfo message
          let outMsg := some (ex.1.take 500 : List Nat)
          let auditsOut := auditAppend ex.2.1.audits contact.wxid displayName (u "out") outMsg none t.nowStr
          { reply := Except.ok (some ex.1), state := { ex.2.1 with audits := auditsOut } }

/-!
Concrete fixtures used by the theorems below: a default configuration, an
empty process state, a fixed clock, a healthy engine oracle and a failing
one, and the specific rows the claims talk about.
-/

/-- An empty YAML document. -/
def rawEmpty : RawConfig := {}

/-- The default configuration (every key absent). -/
def cfgD : Config := loadConfig rawEmpty

/-- The configuration with admin_wxid set to admin0 and everything else
defaulted. -/
def cfgA : Config := loadConfig ({ rawEmpty with admin_wxid := some (u "admin0") })

/-- A process state with empty tables and no in-flight task. -/
def stEmpty : SysState :=
  { friends := [], sessions := [], audits := [], rates := [], activeTasks := [] }

/-- A state in which wxid u1 is already in flight. -/
def stBusy : SysState := { stEmpty with activeTasks := [u "u1"] }

/-- A fixed clock: 2024-01-01 10:00:00 UTC. -/
def tEx : JsEnvTime :=
  { nowMs := 1704103200000, nowStr := u "2024-01-01 10:00:00",
    minuteKey := u "2024-01-01T10:00:00.000Z", dayKey := u "2024-01-01",
    freshUuid := u "uuid-0001" }

/-- Host environment with only an OAuth token exported. -/
def hostWithTok (tok : JStr) : HostEnv :=
  { oauthToken := some tok, apiKey := none, home := u "/root" }

/-- Host environment with an API key exported. -/
def hostEx : HostEnv := { oauthToken := none, apiKey := some (u "sk-test"), home := u "/root" }

/-- A healthy engine: every call succeeds, the CLI exits 0. -/
def oracleNil : DockerOracle :=
  { inspectOk := fun _ => true, runningOut := fun _ => Except.ok (u "true"),
    createOutcome := fun _ => Except.ok (), startOutcome := fun _ => Except.ok (),
    stopOutcome := fun _ => Except.ok (), rmOutcome := fun _ => Except.ok (),
    chownOutcome := Except.ok (), statsOut := none, execCmdOut := Except.ok ([] : JStr),
    psRows := Except.ok [], claudeRun := fun _ => ClaudeRun.closed 0 (u "hello") ([] : JStr),
    extractSession := fun _ => none, regexTest := fun _ _ => false }

/-- An engine whose create and remove calls fail and on which no container
exists. -/
def oracleDown : DockerOracle :=
  { oracleNil with
    inspectOk := fun _ => false
    createOutcome := fun _ => Except.error ()
    rmOutcome := fun _ => Except.error () }

/-- A friend whose stored permission an admin has raised to trusted. -/
def friendTrusted : Friend :=
  { wxid := u "u1", nickname := some (u "A"), remark_name := none,
    permission := u "trusted", added_by := none, notes := none }

/-- The state holding only that friend. -/
def stTrusted : SysState := { stEmpty with friends := [friendTrusted] }

/-- The same identity arriving with a changed nickname and remark. -/
def contactRenamed : Contact := { wxid := u "u1", nickname := u "B", remarkName := u "R" }

/-- An existing session whose last_active column is not a timestamp. -/
def sessBad : Session :=
  { id := u "s1", wxid := u "u1", claude_session := some (u "abc-123"),
    last_active := u "not-a-date", message_count := 3 }

/-- A friend whose nickname is abc. -/
def friendAbc : Friend :=
  { wxid := u "w1", nickname := some (u "abc"), remark_name := none,
    permission := u "normal", added_by := none, notes := none }

/-- The friend Alice at tier normal. -/
def friendAlice : Friend :=
  { wxid := u "w2", nickname := some (u "Alice"), remark_name := none,
    permission := u "normal", added_by := none, notes := none }

/-- The state holding only Alice. -/
def stAlice : SysState := { stEmpty with friends := [friendAlice] }

/-- The administrator arriving over the frontend. -/
def contactAdmin : Contact := { wxid := u "admin0", nickname := u "Boss", remarkName := ([] : JStr) }

/-- A Claude reply of 3999 ASCII characters followed by one emoji
(U+1F600), 4001 UTF-16 code units in all: one unit past the budget, with
the budget boundary falling between the two halves of the surrogate
pair. -/
def c4Input : JStr := List.replicate 3999 97 ++ [55357, 56832]

/-!
Helper lemmas.
-/

/-- Prepending an ASCII letter (code unit 97) does not change UTF-16
well-formedness. -/
theorem wf_cons_ascii (t : List Nat) : wfUtf16 (97 :: t) = wfUtf16 t := by
  have h1 : isHighSur 97 = false := by decide
  have h2 : isLowSur 97 = false := by decide
  rw [wfUtf16.eq_def]
  simp [h1, h2]

/-- A run of ASCII letters can be stripped from a well-formedness check. -/
theorem wf_skip (n : Nat) (l : List Nat) :
    wfUtf16 (List.replicate n 97 ++ l) = wfUtf16 l := by
  induction n with
  | zero => simp
  | succ k ih => rw [List.replicate_succ, List.cons_append, wf_cons_ascii, ih]

/-- Filtering out an absent key is the identity. -/
theorem filterOut_not_mem (l : List JStr) (w : JStr)
    (h : listContainsU l w = false) : filterOutU l w = l := by
  induction l with
  | nil => rfl
  | cons a rest ih =>
    rw [listContainsU] at h
    rcases Bool.or_eq_false_iff.mp h with ⟨h1, h2⟩
    have ih2 := ih h2
    simp only [filterOutU, List.filter_cons] at ih2 ⊢
    simp [h1, ih2]

/-- Filtering out the head key drops it. -/
theorem filterOut_cons_self (w : JStr) (l : List JStr) :
    filterOutU (w :: l) w = filterOutU l w := by
  simp [filterOutU, List.filter_cons]

/-- The executor body never touches the in-flight map: only the finally
block does. -/
theorem executorBody_tasks (st : SysState) (o : DockerOracle) (cfg : Config)
    (host : HostEnv) (t : JsEnvTime) (wxid : JStr) (fi : Option Friend) (msg : JStr) :
    (executorBody st o cfg host t wxid fi msg).2.1.activeTasks = st.activeTasks := by
  cases fi with
  | none => rfl
  | some f =>
    cases hE : ensureContainer o cfg host wxid f.permission with
    | error e => simp [executorBody, hE]
    | ok v => simp [executorBody, hE]

/-- The epilogue keeps the body state except for removing the wxid from
the in-flight map, on the ok and the error path alike. -/
theorem executorFinish_state (out : Except Unit JStr × SysState × List ExecEvent)
    (wxid : JStr) :
    (executorFinish out wxid).2.1 =
      { out.2.1 with activeTasks := filterOutU out.2.1.activeTasks wxid } := by
  rcases out with ⟨r, s, e⟩
  cases r <;> rfl

/-!
The claims.
-/

/-- C1: friend.upsert does NOT leave the stored permission untouched when
the permission field is omitted.  Because the call site binds
permission-or-normal, the ON CONFLICT COALESCE receives the literal
normal instead of NULL, so the upsert of only nickname and remark_name
(exactly the router re-registration in ensureFriendRegistered) overwrites
a stored trusted permission with normal.  Both the raw store operation and
the router path are evaluated at that input. -/
theorem upsert_resets_stored_permission :
    (friendsGet (friendsUpsert [friendTrusted] (u "u1")
        { nickname := some (u "B"), remark_name := some (u "R") }) (u "u1")).map
      Friend.permission = some (u "normal") ∧
    (friendsGet (ensureFriendRegistered cfgD stTrusted contactRenamed).friends (u "u1")).map
      Friend.permission = some (u "normal") ∧
    friendTrusted.permission = u "trusted" := by
  exact ⟨rfl, rfl, rfl⟩

/-- C2: rate.check_and_increment does NOT deny every call when
max_per_minute = 0.  On the first call of a minute no counter row exists,
the minute check is skipped entirely, and with a nonzero day limit the
call is admitted and a counter of 1 is written. -/
theorem rate_zero_minute_limit_admits_first_call :
    (rateCheckAndIncrement [] (u "u1") 0 200 (u "2024-01-01T10:00:00.000Z")
        (u "2024-01-01")).1.allowed = true ∧
    (rateCheckAndIncrement [] (u "u1") 0 200 (u "2024-01-01T10:00:00.000Z")
        (u "2024-01-01")).2 =
      [{ wxid := u "u1", window_start := u "2024-01-01T10:00:00.000Z",
         request_count := 1 }] := by
  exact ⟨rfl, rfl⟩

/-- C3: an unparseable last_active is NOT treated as expired.  The
JavaScript age computation yields NaN, NaN compared with the window is
false, so the session with last_active not-a-date is kept and returned
unchanged: no clear, no fresh session. -/
theorem unparseable_last_active_session_reused :
    getOrCreateSession [sessBad] cfgD tEx (u "u1") = (sessBad, [sessBad]) := rfl

/-- C4: the executor truncation DOES split a multi-byte character.  For a
reply of 3999 ASCII units followed by one emoji (a valid string of 4001
UTF-16 units), substring(0, 4000) cuts between the two surrogate halves,
leaving a trailing lone high surrogate before the suffix: the result is
not a well-formed string. -/
theorem truncate_splits_surrogate_pair :
    wfUtf16 c4Input = true ∧
    truncateResponse c4Input = List.replicate 3999 97 ++ (55357 :: truncSuffixU) ∧
    wfUtf16 (truncateResponse c4Input) = false := by
  have hlen : c4Input.length = 4001 := by
    rw [c4Input, List.length_append, List.length_replicate]
    rfl
  have htake : (c4Input.take 4000 : List Nat) = List.replicate 3999 97 ++ [55357] := by
    rw [c4Input, List.take_append_eq_append_take, List.take_replicate, List.length_replicate]
    norm_num
  have htr : truncateResponse c4Input = List.replicate 3999 97 ++ (55357 :: truncSuffixU) := by
    rw [truncateResponse, if_pos (by rw [hlen]; norm_num [executorMaxLen])]
    simp only [executorMaxLen]
    rw [htake, List.append_assoc]
    rfl
  refine ⟨?_, htr, ?_⟩
  · rw [c4Input, wf_skip]
    decide
  · rw [htr, wf_skip]
    decide

/-- C5: the in-flight guard.  When the wxid is already in flight, execute
returns the busy reply with the state untouched and no external event
(engine, session store or CLI); when it is not, the wxid is inserted on
entry and removed again on every exit path - ok and error alike - so the
final in-flight map equals the initial one and never retains the wxid. -/
theorem executor_inflight_guard (st : SysState) (o : DockerOracle) (cfg : Config)
    (host : HostEnv) (t : JsEnvTime) (wxid : JStr) (fi : Option Friend) (msg : JStr) :
    (listContainsU st.activeTasks wxid = true →
      executorExecute st o cfg host t wxid fi msg = (busyReplyU, st, [])) ∧
    (listContainsU st.activeTasks wxid = false →
      (executorExecute st o cfg host t wxid fi msg).2.1.activeTasks = st.activeTasks ∧
      listContainsU (executorExecute st o cfg host t wxid fi msg).2.1.activeTasks wxid
        = false) := by
  constructor
  · intro h
    simp [executorExecute, h]
  · intro h
    have hstate : (executorExecute st o cfg host t wxid fi msg).2.1.activeTasks
        = st.activeTasks := by
      rw [executorExecute, if_neg (by simp [h])]
      rw [executorFinish_state]
      have hb := executorBody_tasks
        { st with activeTasks := wxid :: st.activeTasks } o cfg host t wxid fi msg
      simp only [hb]
      rw [filterOut_cons_self, filterOut_not_mem st.activeTasks wxid h]
    exact ⟨hstate, by rw [hstate]; exact h⟩

/-- C5 witness: the guard theorem applied at concrete inputs - a busy
state returns the busy triple unchanged, and a free state ends with the
in-flight map it started with. -/
theorem executor_inflight_guard_check :
    executorExecute stBusy oracleNil cfgD hostEx tEx (u "u1") none (u "hi")
      = (busyReplyU, stBusy, []) ∧
    (executorExecute stEmpty oracleNil cfgD hostEx tEx (u "u1") none (u "hi")).2.1.activeTasks
      = stEmpty.activeTasks := by
  exact ⟨(executor_inflight_guard stBusy oracleNil cfgD hostEx tEx (u "u1") none (u "hi")).1
      (by decide),
    ((executor_inflight_guard stEmpty oracleNil cfgD hostEx tEx (u "u1") none (u "hi")).2
      (by decide)).1⟩

/-- C6: find_by_nickname does NOT escape LIKE wildcards.  The query a_c is
interpolated raw into the pattern, its underscore matches any character,
and the friend whose nickname is abc is returned although a_c is not a
literal substring of abc (and the friend has no remark_name). -/
theorem find_by_nickname_wildcard_matches :
    friendsFindByNickname [friendAbc] (u "a_c") = [friendAbc] ∧
    hasSubstrU (u "abc") (u "a_c") = false ∧
    friendAbc.remark_name = none := by
  exact ⟨rfl, rfl, rfl⟩

/-- C7: the container environment does NOT include CLAUDE_CODE_OAUTH_TOKEN
even when it is set on the host.  For every token value, docker create
forwards exactly WXID and ANTHROPIC_API_KEY (the latter defaulted to the
empty string), and docker exec forwards exactly ANTHROPIC_API_KEY. -/
theorem container_env_lacks_oauth_token (tok : JStr) :
    envNamesU (createContainerArgs cfgD (hostWithTok tok) (u "u1") (u "normal"))
      = [u "WXID", u "ANTHROPIC_API_KEY"] ∧
    listContainsU (envNamesU (createContainerArgs cfgD (hostWithTok tok) (u "u1") (u "normal")))
      (u "CLAUDE_CODE_OAUTH_TOKEN") = false ∧
    envNamesU (execClaudeFullArgs cfgD (hostWithTok tok) (u "u1") (u "sys") (u "hi")
        { claudeSession := none, permission := u "normal", timeoutS := 120 })
      = [u "ANTHROPIC_API_KEY"] := by
  exact ⟨rfl, rfl, rfl⟩

/-- C8: splitMessage does NOT keep every split point on a character
boundary.  The reply a-emoji-a (code units 97, 55357, 56832, 97) is a
valid string; with cap 2 the hard cut falls between the emoji surrogate
halves, so the first chunk ends with a lone high surrogate and is not a
valid string. -/
theorem split_message_cuts_surrogate_pair :
    wfUtf16 (u "a😀a") = true ∧
    splitMessage (u "a😀a") 2 = [[97, 55357], [56832, 97]] ∧
    wfUtf16 [97, 55357] = false := by
  decide

/-- C9: a message-handling path that returns no user-visible string.  When
the admin sends /rebuild Alice and the engine create call fails, the
exception from ensureContainer propagates through cmdRebuild and
handleCommand out of handleMessage (only the executor dispatch is wrapped
in try), so the frontend receives an error instead of any reply. -/
theorem rebuild_engine_error_escapes_router :
    (routerHandleMessage cfgA oracleDown hostEx tEx stAlice contactAdmin
      (u "/rebuild Alice")).reply = Except.error () := rfl

/-- C10: with the default configuration admin_wxid is the empty string, so
a contact whose wxid is empty is forced to the admin tier regardless of
whatever the friends table stores, and at that tier the security filter
accepts every message whatever the configured patterns and the RegExp
engine do. -/
theorem empty_wxid_effective_admin :
    cfgD.admin_wxid = ([] : JStr) ∧
    (∀ friends : List Friend,
      getEffectivePermission cfgD friends ([] : JStr) = u "admin") ∧
    (∀ (rt : JStr → JStr → Bool) (msg : JStr) (friends : List Friend),
      (routerSecurityCheck cfgD rt msg
        (getEffectivePermission cfgD friends ([] : JStr))).safe = true) := by
  exact ⟨rfl, fun _ => rfl, fun _ _ _ => rfl⟩
